import Mathlib

/-! syz-reporter: report generation

A shallow embedding of `tools/syz-reporter/reporter.go` and the properties of
its report builder.

* The file system the tool reads is an explicit value `FS`: every `ioutil.ReadDir`,
  `os.Stat`, `os.Open` and `filepath.Join` of the source is a call of the
  corresponding field.
* `log.Fatal` terminates the process; the functions that can reach it return `Option`,
  with `none` for "the process was terminated".
* `report` (a Go `map[string][]string`) is a function from section name to lines; a key
  that was never assigned reads as the empty list, as in Go.
* `write_report` returns the text written to the output file; creating the file and
  writing to it are taken to succeed. The echo of the same lines on the console is not
  part of the model.
* The loop of `generate` and `get_comparison_results` take the log parser as an
  argument (`parse`), so that the statements on classification and on the kernel
  version list hold for every parser result. `generate`, `generate_report` and
  `get_comparison_results` instantiate it with the parser of the source,
  `get_kernel_version_and_exit_code`.
-/

namespace SyzReporter

set_option maxRecDepth 4096

/-! ## Environment -/

/-- The part of the operating system the tool calls. -/
structure FS where
  /-- `filepath.Join` of two path elements. -/
  Join : String → String → String
  /-- `ioutil.ReadDir`: the names of the entries in listing order, `none` on error. -/
  ReadDir : String → Option (List String)
  /-- `os.Stat`: `none` on error, otherwise `some b` with `b` the value of `IsDir()`. -/
  Stat : String → Option Bool
  /-- `os.Open` followed by `bufio.NewReader`: `none` when the open fails, otherwise the
  successive results `(line, isPrefix)` of `ReadLine`; once they are used up `ReadLine`
  returns the end-of-stream error. -/
  Open : String → Option (List (String × Bool))

/-- The source's `statuses`: the fixed order of the outcome buckets. -/
def statuses : List String := ["crashed", "failed", "timed_out", "passed"]

/-- A report: section name to lines (`map[string][]string`). -/
abbrev Report := String → List String

/-- Assignment `report[key] = val`. -/
def Report.set (report : Report) (key : String) (val : List String) : Report :=
  fun k => if k = key then val else report k

/-! ## Strings -/

/-- Go's `unicode.IsSpace`. -/
def isSpace (c : Char) : Bool :=
  let n := c.toNat
  n = 0x09 || n = 0x0A || n = 0x0B || n = 0x0C || n = 0x0D || n = 0x20 || n = 0x85 || n = 0xA0
    || n = 0x1680 || (0x2000 ≤ n && n ≤ 0x200A) || n = 0x2028 || n = 0x2029 || n = 0x202F
    || n = 0x205F || n = 0x3000

/-- Drop from both ends of `s` the characters satisfying `p`. -/
def trimBoth (p : Char → Bool) (s : String) : String :=
  String.mk ((s.data.dropWhile p).reverse.dropWhile p).reverse

/-- Go's `strings.TrimSpace`. -/
def TrimSpace (s : String) : String := trimBoth isSpace s

/-- Go's `strings.Trim(s, cutset)`. -/
def Trim (s : String) (cutset : String) : String := trimBoth (fun c => cutset.data.contains c) s

/-- The fields of a character list separated by `sep`. -/
def splitChars (sep : Char) : List Char → List (List Char)
  | [] => [[]]
  | c :: cs =>
    if c = sep then [] :: splitChars sep cs
    else match splitChars sep cs with
      | [] => [[c]]
      | f :: fs => (c :: f) :: fs

/-- Go's `strings.Split(s, sep)` for a separator of one character. -/
def Split (s : String) (sep : Char) : List String :=
  (splitChars sep s.data).map String.mk

/-- Go's `strconv.Itoa`, on the non-negative values it is called with (lengths). -/
def Itoa (n : Nat) : String := Nat.repr n

/-! ## Line Reader -/

/-- The loop of `ReadStrippedln`: `r` holds the results `ReadLine` still has to return,
`outLn` the bytes gathered so far. Returns the gathered text and whether the last
`ReadLine` returned an error. -/
def ReadStrippedln_loop : List (String × Bool) → String → String × Bool
  | [], outLn => (outLn, true)
  | (line, isPrfx) :: r, outLn =>
    if isPrfx then ReadStrippedln_loop r (outLn ++ line) else (outLn ++ line, false)

/-- `ReadStrippedln`: one logical line, stripped, and whether `er != nil`. -/
def ReadStrippedln (r : List (String × Bool)) : String × Bool :=
  let (outLn, er) := ReadStrippedln_loop r ""
  let outLine := outLn
  let outLine := TrimSpace outLine
  let outLine := Trim outLine "\t \n"
  (outLine, er)

/-! ## Crash Scanner -/

/-- The loop of `get_crashes` over the listing of `hash_dir`. -/
def get_crashes_loop (fs : FS) (hash_dir : String) : List String → List String → Option (List String)
  | [], crashes => some crashes
  | crash :: rest, crashes =>
    let crash_path := fs.Join hash_dir crash
    if fs.Stat crash_path ≠ some true then get_crashes_loop fs hash_dir rest crashes
    else
      let desc_file := fs.Join crash_path "description"
      match fs.Open desc_file with
      | none => none
      | some rdDescFile =>
        let (description, err) := ReadStrippedln rdDescFile
        if err then none
        else get_crashes_loop fs hash_dir rest (crashes ++ [description])

/-- `get_crashes`: the descriptions of the crash subdirectories of `hash_dir`. -/
def get_crashes (fs : FS) (hash_dir : String) : Option (List String) :=
  let crashes : List String := []
  match fs.ReadDir hash_dir with
  | none => none
  | some hashDirList => get_crashes_loop fs hash_dir hashDirList crashes

/-! ## Log Parser -/

/-- `get_kernel_version_and_exit_code`: the source sets the two defaults and returns
them; the scan of the log is still a comment in the source (`TODO: Convert!`). -/
def get_kernel_version_and_exit_code (_logfile : String) : String × String :=
  let exit_code := "1"
  let kernel_version := "TBD!"
  (kernel_version, exit_code)

/-! ## Joining crash descriptions -/

/-- The loop `for _, crash := range crashes` that appends every description to `line`,
followed by `", "` when the description differs from `last` (the source passes
`crashes[len(crashes) - 1]`). It occurs in `generate` and in `get_comparison_results`. -/
def append_crashes (last : String) : List String → String → String
  | [], line => line
  | crash :: rest, line =>
    let line := line ++ crash
    let line := if crash ≠ last then line ++ ", " else line
    append_crashes last rest line

/-! ## Comparison Resolver -/

/-- The loop of `get_comparison_results` over the comparison directories. -/
def get_comparison_results_loop (parse : String → String × String) (fs : FS) (hash_id : String) :
    List String → String → Option String
  | [], comparison_results => some comparison_results
  | dir :: rest, _ =>
    let hash_dir := fs.Join dir hash_id
    let hash_log := fs.Join hash_dir (hash_id ++ ".log")
    let comparison_results := "|"
    match fs.Stat hash_log with
    | none => get_comparison_results_loop parse fs hash_id rest (comparison_results ++ "Not available")
    | some _ =>
      let exit_code := (parse hash_log).2
      match get_crashes fs hash_dir with
      | none => none
      | some crashes =>
        if crashes.length > 0 then
          get_comparison_results_loop parse fs hash_id rest
            (append_crashes (crashes.getLastD "") crashes comparison_results)
        else if exit_code = "124" then
          get_comparison_results_loop parse fs hash_id rest (comparison_results ++ "TIMED OUT")
        else if exit_code = "0" then
          get_comparison_results_loop parse fs hash_id rest (comparison_results ++ "PASSED")
        else
          get_comparison_results_loop parse fs hash_id rest (comparison_results ++ "FAILED")

/-- `get_comparison_results` with the log parser as an argument. -/
def get_comparison_results_with (parse : String → String × String) (fs : FS)
    (comparison_dirs : List String) (hash_id : String) : Option String :=
  let comparison_results := ""
  if comparison_dirs.length > 0 then some comparison_results
  else get_comparison_results_loop parse fs hash_id comparison_dirs comparison_results

/-- `get_comparison_results` of the source. -/
def get_comparison_results (fs : FS) (comparison_dirs : List String) (hash_id : String) :
    Option String :=
  get_comparison_results_with get_kernel_version_and_exit_code fs comparison_dirs hash_id

/-! ## Report Builder -/

/-- `Contains`: whether `a` contains `x`. -/
def Contains : List String → String → Bool
  | [], _ => false
  | n :: a, x => if x = n then true else Contains a x

/-- The part of `generate` before the directory listing: the empty sections and the
header line. -/
def generate_init (comparison_dir : List String) : Report :=
  let report : Report := fun _ => []
  let report := report.set "kernel_versions" []
  let report := report.set "header" (report "header" ++ ["SHA|Status|Crashes"])
  let report :=
    if comparison_dir.length > 1 ∨ (comparison_dir.length > 0 ∧ (comparison_dir.headD "").length > 0) then
      comparison_dir.foldl
        (fun report dir => report.set "header" ((report "header").modifyHead (fun h => h ++ ("|" ++ dir))))
        report
    else report
  let report := report.set "summary" []
  statuses.foldl (fun report status => report.set status []) report

/-- The body of the loop of `generate` for the directory entry `hash_id`. -/
def generate_step (parse : String → String × String) (fs : FS) (input_dir : String)
    (comparison_dir : List String) (report : Report) (hash_id : String) : Option Report :=
  let hash_dir := fs.Join input_dir hash_id
  if fs.Stat hash_dir ≠ some true then some report
  else
    match get_crashes fs hash_dir with
    | none => none
    | some crashes =>
      let hash_log := fs.Join hash_dir (hash_id ++ ".log")
      if fs.Stat hash_log = none then some report
      else
        let kernel_version := (parse hash_log).1
        let exit_code := (parse hash_log).2
        let report :=
          if !Contains (report "kernel_versions") kernel_version then
            report.set "kernel_versions" (report "kernel_versions" ++ [kernel_version])
          else report
        let report_line := hash_id ++ "|"
        let bisect_result := ""
        match get_comparison_results_with parse fs comparison_dir hash_id with
        | none => none
        | some comparison_results =>
          if crashes.length > 0 then
            let report_line := report_line ++ "CRASHED|"
            let report_line := append_crashes (crashes.getLastD "") crashes report_line
            some (report.set "crashed" (report "crashed" ++ [report_line]))
          else if exit_code = "124" then
            let report_line := report_line ++ ("TIMED OUT|" ++ bisect_result ++ comparison_results)
            some (report.set "timed_out" (report "timed_out" ++ [report_line]))
          else if exit_code = "0" then
            let report_line := report_line ++ ("PASSED|" ++ bisect_result ++ comparison_results)
            some (report.set "passed" (report "passed" ++ [report_line]))
          else
            let report_line := report_line ++ ("FAILED|" ++ bisect_result ++ comparison_results)
            some (report.set "failed" (report "failed" ++ [report_line]))

/-- The loop of `generate` over the listing of the input directory. -/
def generate_loop (parse : String → String × String) (fs : FS) (input_dir : String)
    (comparison_dir : List String) : List String → Report → Option Report
  | [], report => some report
  | hash_id :: rest, report =>
    match generate_step parse fs input_dir comparison_dir report hash_id with
    | none => none
    | some report => generate_loop parse fs input_dir comparison_dir rest report

/-- The end of `generate`: the five summary lines. -/
def generate_summary (report : Report) : Report :=
  let total_repros := statuses.foldl (fun total_repros status => total_repros + (report status).length) 0
  let report := report.set "summary" (report "summary" ++ ["Total number of reproducers: " ++ Itoa total_repros])
  let report := report.set "summary" (report "summary" ++ ["Crashed: " ++ Itoa (report "crashed").length])
  let report := report.set "summary" (report "summary" ++ ["Failed: " ++ Itoa (report "failed").length])
  let report := report.set "summary" (report "summary" ++ ["Timed out: " ++ Itoa (report "timed_out").length])
  let report := report.set "summary" (report "summary" ++ ["passed: " ++ Itoa (report "passed").length])
  report

/-- The report `generate` hands to `write_report`, with the log parser as an argument;
`none` when the process is terminated before. -/
def generate_report_with (parse : String → String × String) (fs : FS) (input_dir : String)
    (comparison_dir : List String) : Option Report :=
  let report := generate_init comparison_dir
  match fs.ReadDir input_dir with
  | none => none
  | some dirList =>
    match generate_loop parse fs input_dir comparison_dir dirList report with
    | none => none
    | some report => some (generate_summary report)

/-- The report `generate` of the source hands to `write_report`. -/
def generate_report (fs : FS) (input_dir : String) (comparison_dir : List String) : Option Report :=
  generate_report_with get_kernel_version_and_exit_code fs input_dir comparison_dir

/-! ## Report Writer -/

/-- The loop of `write_report` that writes the separator row for `column_count` columns. -/
def separator_row : Nat → String
  | 0 => ""
  | column_count + 1 => "-" ++ (if column_count > 0 then "|" else "") ++ separator_row column_count

/-- `write_report`: the text written to the output file, in the order of the writes;
`none` when `report["header"]` has no first line (the index expression panics). -/
def write_report (report : Report) : Option String :=
  let out := ""
  let out :=
    if (report "kernel_versions").length > 0 then
      let out := out ++ "# Found kernel version(s):\n"
      let out := out ++ "```\n"
      let out := (report "kernel_versions").foldl (fun out kernel_version => out ++ (kernel_version ++ "\n")) out
      out ++ "```\n"
    else out
  let out := out ++ "# Summary:\n"
  let out := (report "summary").foldl (fun out line => out ++ ("    " ++ line ++ "\n")) out
  let out := out ++ "# Reproducers:\n"
  match report "header" with
  | [] => none
  | header :: _ =>
    let out := out ++ (header ++ "\n")
    let column_count := (Split header '|').length
    let out := out ++ separator_row column_count
    let out := out ++ "\n"
    let out := statuses.foldl
      (fun out status => (report status).foldl (fun out line => out ++ (line ++ "\n")) out) out
    some out

/-- `generate`: the text it writes to `output_file`; `none` when the process is
terminated before the report is written. -/
def generate (fs : FS) (input_dir _output_file _config_bisect_dir : String)
    (comparison_dir : List String) : Option String :=
  match generate_report fs input_dir comparison_dir with
  | none => none
  | some report => write_report report

/-! ## Measures used in the statements -/

/-- Whether the entry `hash_id` of the input directory is a directory holding a run log:
`os.Stat` reports a directory for it and succeeds on `<hash_id>.log` inside it. -/
def has_run_log (fs : FS) (input_dir hash_id : String) : Bool :=
  fs.Stat (fs.Join input_dir hash_id) = some true &&
    (fs.Stat (fs.Join (fs.Join input_dir hash_id) (hash_id ++ ".log"))).isSome

/-- The kernel version list after a run whose log yields `kernel_version`. -/
def record_version (kernel_versions : List String) (kernel_version : String) : List String :=
  if Contains kernel_versions kernel_version then kernel_versions
  else kernel_versions ++ [kernel_version]

/-- Number of rows in the four outcome buckets. -/
def bucket_total (report : Report) : Nat :=
  (report "crashed").length + (report "failed").length + (report "timed_out").length +
    (report "passed").length

/-- The kernel versions the parser yields for the runs of `dirList` that have a run log,
in processing order. -/
def run_versions (parse : String → String × String) (fs : FS) (input_dir : String)
    (dirList : List String) : List String :=
  (dirList.filter (has_run_log fs input_dir)).map
    (fun hash_id => (parse (fs.Join (fs.Join input_dir hash_id) (hash_id ++ ".log"))).1)

/-! ## Concrete file systems -/

/-- Path join used by the concrete file systems: the elements separated by `/`. -/
def joinPath (a b : String) : String :=
  if a = "" then b else if b = "" then a else a ++ "/" ++ b

/-- Scenario A: `in/deadbeef/deadbeef.log` records exit code 0 and has no version line;
there is no crash subdirectory. -/
def fsA : FS where
  Join := joinPath
  ReadDir := fun p =>
    if p = "in" then some ["deadbeef"]
    else if p = "in/deadbeef" then some ["deadbeef.log"]
    else none
  Stat := fun p =>
    if p = "in" then some true
    else if p = "in/deadbeef" then some true
    else if p = "in/deadbeef/deadbeef.log" then some false
    else none
  Open := fun p =>
    if p = "in/deadbeef/deadbeef.log" then
      some [("booting", false), ("Reproducer exit code was: 0", false)]
    else none

/-- Two crash subdirectories of `in/cafef00d` carry the same description. -/
def fsB : FS where
  Join := joinPath
  ReadDir := fun p =>
    if p = "in" then some ["cafef00d"]
    else if p = "in/cafef00d" then some ["cafef00d.log", "crash1", "crash2"]
    else none
  Stat := fun p =>
    if p = "in" then some true
    else if p = "in/cafef00d" then some true
    else if p = "in/cafef00d/cafef00d.log" then some false
    else if p = "in/cafef00d/crash1" then some true
    else if p = "in/cafef00d/crash2" then some true
    else if p = "in/cafef00d/crash1/description" then some false
    else if p = "in/cafef00d/crash2/description" then some false
    else none
  Open := fun p =>
    if p = "in/cafef00d/cafef00d.log" then some [("Reproducer exit code was: 1", false)]
    else if p = "in/cafef00d/crash1/description" then some [("KASAN: use-after-free", false)]
    else if p = "in/cafef00d/crash2/description" then some [("KASAN: use-after-free", false)]
    else none

/-- Scenario C: the last matching line of `run.log` records exit code 124, after an
unrelated numeric line and a kernel banner. -/
def fsC : FS where
  Join := joinPath
  ReadDir := fun _ => none
  Stat := fun p => if p = "run.log" then some false else none
  Open := fun p =>
    if p = "run.log" then
      some [("[    0.000000] Linux version 4.19.59 (gcc 8.3.0)", false), ("42", false),
        ("Reproducer exit code was: 124", false)]
    else none

/-- The input directory `in` lists two runs with a log (`0a1b`, `c2d3`), a plain file
(`README`) and a directory without a log (`e4f5`). -/
def fsD : FS where
  Join := joinPath
  ReadDir := fun p =>
    if p = "in" then some ["0a1b", "README", "c2d3", "e4f5"]
    else if p = "in/0a1b" then some ["0a1b.log"]
    else if p = "in/c2d3" then some ["c2d3.log"]
    else if p = "in/e4f5" then some []
    else none
  Stat := fun p =>
    if p = "in" then some true
    else if p = "in/0a1b" then some true
    else if p = "in/README" then some false
    else if p = "in/c2d3" then some true
    else if p = "in/e4f5" then some true
    else if p = "in/0a1b/0a1b.log" then some false
    else if p = "in/c2d3/c2d3.log" then some false
    else none
  Open := fun p =>
    if p = "in/0a1b/0a1b.log" then some [("Reproducer exit code was: 1", false)]
    else if p = "in/c2d3/c2d3.log" then some [("Reproducer exit code was: 1", false)]
    else none

/-- The report built for `fsD` without comparison directories. -/
def reportD : Report := (generate_report fsD "in" []).getD (fun _ => [])

/-- The report built for `fsA` with the comparison directory `cmp`. -/
def reportA : Report := (generate_report fsA "in" ["cmp"]).getD (fun _ => [])

/-! ## Basic facts -/

theorem Report.set_self (report : Report) (key : String) (val : List String) :
    report.set key val key = val := by
  simp [Report.set]

theorem Report.set_other (report : Report) (key k : String) (val : List String) (h : k ≠ key) :
    report.set key val k = report k := by
  simp [Report.set, h]

/-- The comparison resolver returns the empty string for every list of directories:
a non-empty list takes the early return, the empty list runs the loop zero times. -/
theorem get_comparison_results_with_eq (parse : String → String × String) (fs : FS)
    (comparison_dirs : List String) (hash_id : String) :
    get_comparison_results_with parse fs comparison_dirs hash_id = some "" := by
  cases comparison_dirs with
  | nil => simp [get_comparison_results_with, get_comparison_results_loop]
  | cons d ds => simp [get_comparison_results_with]

theorem Contains_iff (a : List String) (x : String) : Contains a x = true ↔ x ∈ a := by
  induction a with
  | nil => simp [Contains]
  | cons n a ih =>
    by_cases h : x = n
    · simp [Contains, h]
    · simp [Contains, h, ih]

theorem record_version_report (report : Report) (kernel_version : String) :
    (if (!Contains (report "kernel_versions") kernel_version) = true then
      report.set "kernel_versions" (report "kernel_versions" ++ [kernel_version])
    else report) =
    report.set "kernel_versions" (record_version (report "kernel_versions") kernel_version) := by
  funext k
  by_cases hc : Contains (report "kernel_versions") kernel_version = true
  · by_cases hk : k = "kernel_versions"
    · simp [hc, record_version, Report.set, hk]
    · simp [hc, record_version, Report.set, hk]
  · simp [hc, record_version]

theorem generate_step_spec (parse : String → String × String) (fs : FS) (input_dir : String)
    (comparison_dir : List String) (report report' : Report) (hash_id : String)
    (h : generate_step parse fs input_dir comparison_dir report hash_id = some report') :
    (has_run_log fs input_dir hash_id = false ∧ report' = report) ∨
    (has_run_log fs input_dir hash_id = true ∧ ∃ bucket row, bucket ∈ statuses ∧
      report' = (report.set "kernel_versions" (record_version (report "kernel_versions")
        (parse (fs.Join (fs.Join input_dir hash_id) (hash_id ++ ".log"))).1)).set bucket
          (report bucket ++ [row])) := by
  unfold generate_step at h
  simp only [get_comparison_results_with_eq] at h
  by_cases hdir : fs.Stat (fs.Join input_dir hash_id) = some true
  · simp only [hdir, ne_eq, not_true_eq_false, if_false] at h
    cases hcr : get_crashes fs (fs.Join input_dir hash_id) with
    | none => simp [hcr] at h
    | some crashes =>
      simp only [hcr] at h
      by_cases hlog : fs.Stat (fs.Join (fs.Join input_dir hash_id) (hash_id ++ ".log")) = none
      · left
        simp only [hlog, if_true, Option.some.injEq] at h
        exact ⟨by simp [has_run_log, hlog], h.symm⟩
      · right
        simp only [hlog, if_false] at h
        refine ⟨by simp [has_run_log, hdir, Option.isSome_iff_ne_none, hlog], ?_⟩
        rw [record_version_report] at h
        have e1 : ∀ X, (report.set "kernel_versions" X) "crashed" = report "crashed" :=
          fun X => by simp [Report.set]
        have e2 : ∀ X, (report.set "kernel_versions" X) "timed_out" = report "timed_out" :=
          fun X => by simp [Report.set]
        have e3 : ∀ X, (report.set "kernel_versions" X) "passed" = report "passed" :=
          fun X => by simp [Report.set]
        have e4 : ∀ X, (report.set "kernel_versions" X) "failed" = report "failed" :=
          fun X => by simp [Report.set]
        rw [e1, e2, e3, e4] at h
        split_ifs at h with h1 h2 h3
        · exact ⟨"crashed", _, by simp [statuses], (Option.some.inj h).symm⟩
        · exact ⟨"timed_out", _, by simp [statuses], (Option.some.inj h).symm⟩
        · exact ⟨"passed", _, by simp [statuses], (Option.some.inj h).symm⟩
        · exact ⟨"failed", _, by simp [statuses], (Option.some.inj h).symm⟩
  · left
    simp only [ne_eq, hdir, not_false_eq_true, if_true, Option.some.injEq] at h
    exact ⟨by simp [has_run_log, hdir], h.symm⟩

theorem generate_step_effect (parse : String → String × String) (fs : FS) (input_dir : String)
    (comparison_dir : List String) (report report' : Report) (hash_id : String)
    (h : generate_step parse fs input_dir comparison_dir report hash_id = some report') :
    bucket_total report' = bucket_total report + ([hash_id].filter (has_run_log fs input_dir)).length ∧
    report' "summary" = report "summary" ∧ report' "header" = report "header" ∧
    report' "kernel_versions" =
      (run_versions parse fs input_dir [hash_id]).foldl record_version (report "kernel_versions") := by
  rcases generate_step_spec parse fs input_dir comparison_dir report report' hash_id h with
    ⟨hr, rfl⟩ | ⟨hr, bucket, row, hb, rfl⟩
  · simp [run_versions, hr]
  · simp only [statuses, List.mem_cons, List.mem_singleton, List.not_mem_nil, or_false] at hb
    rcases hb with rfl | rfl | rfl | rfl <;>
      simp [run_versions, hr, bucket_total, Report.set] <;> omega

theorem generate_loop_effect (parse : String → String × String) (fs : FS) (input_dir : String)
    (comparison_dir : List String) (dirList : List String) :
    ∀ (report report' : Report),
    generate_loop parse fs input_dir comparison_dir dirList report = some report' →
    bucket_total report' = bucket_total report + (dirList.filter (has_run_log fs input_dir)).length ∧
    report' "summary" = report "summary" ∧ report' "header" = report "header" ∧
    report' "kernel_versions" =
      (run_versions parse fs input_dir dirList).foldl record_version (report "kernel_versions") := by
  induction dirList with
  | nil =>
    intro report report' h
    simp only [generate_loop, Option.some.injEq] at h
    subst h
    simp [run_versions]
  | cons hash_id rest ih =>
    intro report report' h
    simp only [generate_loop] at h
    cases hs : generate_step parse fs input_dir comparison_dir report hash_id with
    | none => simp [hs] at h
    | some mid =>
      simp only [hs] at h
      obtain ⟨s1, s2, s3, s4⟩ := generate_step_effect parse fs input_dir comparison_dir report mid hash_id hs
      obtain ⟨l1, l2, l3, l4⟩ := ih mid report' h
      refine ⟨?_, l2.trans s2, l3.trans s3, ?_⟩
      · rw [l1, s1]
        by_cases hr : has_run_log fs input_dir hash_id = true
        · simp [List.filter_cons, hr]; omega
        · simp [List.filter_cons, hr]
      · rw [l4, s4]
        by_cases hr : has_run_log fs input_dir hash_id = true
        · simp [run_versions, List.filter_cons, hr]
        · simp [run_versions, List.filter_cons, hr]

theorem foldl_append_eq (l : List String) : ∀ acc : String,
    l.foldl (fun r s => r ++ s) acc = acc ++ l.foldl (fun r s => r ++ s) "" := by
  induction l with
  | nil => intro acc; simp
  | cons a l ih =>
    intro acc
    simp only [List.foldl_cons]
    rw [ih (acc ++ a), ih ("" ++ a), String.empty_append, String.append_assoc]

theorem join_cons (a : String) (l : List String) : String.join (a :: l) = a ++ String.join l := by
  simp only [String.join, List.foldl_cons]
  rw [foldl_append_eq, String.empty_append]

theorem header_fold_other (dirs : List String) : ∀ (report : Report) (k : String), k ≠ "header" →
    dirs.foldl
      (fun (report : Report) dir =>
        report.set "header" ((report "header").modifyHead (fun h => h ++ ("|" ++ dir))))
      report k = report k := by
  induction dirs with
  | nil => intro report k _; rfl
  | cons d ds ih =>
    intro report k hk
    simp only [List.foldl_cons]
    rw [ih _ k hk, Report.set_other _ _ _ _ hk]

theorem header_fold_header (dirs : List String) : ∀ (report : Report) (h : String),
    report "header" = [h] →
    dirs.foldl
      (fun (report : Report) dir =>
        report.set "header" ((report "header").modifyHead (fun h => h ++ ("|" ++ dir))))
      report "header" = [h ++ String.join (dirs.map (fun dir => "|" ++ dir))] := by
  induction dirs with
  | nil => intro report h hh; simp [hh, String.join]
  | cons d ds ih =>
    intro report h hh
    simp only [List.foldl_cons, List.map_cons]
    rw [ih _ (h ++ ("|" ++ d)) (by simp [Report.set, hh]), join_cons, String.append_assoc]

theorem generate_init_sections (comparison_dir : List String) :
    bucket_total (generate_init comparison_dir) = 0 ∧
    generate_init comparison_dir "summary" = [] ∧
    generate_init comparison_dir "kernel_versions" = [] := by
  unfold generate_init bucket_total
  simp only [statuses, List.foldl_cons, List.foldl_nil]
  split_ifs with hc
  · simp [Report.set, header_fold_other]
  · simp [Report.set]

theorem generate_init_header (comparison_dir : List String) :
    generate_init comparison_dir "header" =
      [if comparison_dir = [] ∨ comparison_dir = [""] then "SHA|Status|Crashes"
       else "SHA|Status|Crashes" ++ String.join (comparison_dir.map (fun dir => "|" ++ dir))] := by
  unfold generate_init
  simp only [statuses, List.foldl_cons, List.foldl_nil]
  split_ifs with hc he he
  · exfalso
    rcases he with rfl | rfl
    · simp at hc
    · simp at hc
  · simp only [Report.set, String.reduceEq, if_false]
    rw [header_fold_header _ _ "SHA|Status|Crashes" (by simp [Report.set])]
  · simp [Report.set]
  · exfalso
    apply hc
    cases comparison_dir with
    | nil => simp at he
    | cons d ds =>
      cases ds with
      | nil =>
        right
        refine ⟨by simp, ?_⟩
        have hd : d ≠ "" := fun h => he (Or.inr (by rw [h]))
        simp only [List.headD_cons]
        rcases d with ⟨cs⟩
        cases cs with
        | nil => exact absurd rfl hd
        | cons c cs => simp [String.length]
      | cons d2 ds => left; simp

theorem generate_summary_other (report : Report) (k : String) (hk : k ≠ "summary") :
    generate_summary report k = report k := by
  simp [generate_summary, Report.set, hk]

theorem generate_summary_summary (report : Report) :
    generate_summary report "summary" = report "summary" ++
      ["Total number of reproducers: " ++ Itoa (bucket_total report),
       "Crashed: " ++ Itoa (report "crashed").length,
       "Failed: " ++ Itoa (report "failed").length,
       "Timed out: " ++ Itoa (report "timed_out").length,
       "passed: " ++ Itoa (report "passed").length] := by
  simp [generate_summary, Report.set, statuses, bucket_total]

theorem generate_report_with_inv (parse : String → String × String) (fs : FS) (input_dir : String)
    (comparison_dir dirList : List String) (report : Report)
    (hlist : fs.ReadDir input_dir = some dirList)
    (h : generate_report_with parse fs input_dir comparison_dir = some report) :
    ∃ report0, report = generate_summary report0 ∧
      bucket_total report0 = (dirList.filter (has_run_log fs input_dir)).length ∧
      report0 "summary" = [] ∧
      report0 "header" = generate_init comparison_dir "header" ∧
      report0 "kernel_versions" =
        (run_versions parse fs input_dir dirList).foldl record_version [] := by
  unfold generate_report_with at h
  simp only [hlist] at h
  cases hl : generate_loop parse fs input_dir comparison_dir dirList (generate_init comparison_dir) with
  | none => simp [hl] at h
  | some report0 =>
    simp only [hl, Option.some.injEq] at h
    obtain ⟨l1, l2, l3, l4⟩ := generate_loop_effect parse fs input_dir comparison_dir dirList _ _ hl
    obtain ⟨i1, i2, i3⟩ := generate_init_sections comparison_dir
    refine ⟨report0, h.symm, ?_, ?_, l3, ?_⟩
    · rw [l1, i1, Nat.zero_add]
    · rw [l2, i2]
    · rw [l4, i3]

/-- When no description before the last one equals it, `append_crashes` appends the
descriptions separated by `", "`. -/
theorem append_crashes_last_unique (last : String) : ∀ (init : List String) (line : String),
    (∀ c ∈ init, c ≠ last) →
    append_crashes last (init ++ [last]) line =
      line ++ String.join (init.map (fun c => c ++ ", ")) ++ last := by
  intro init
  induction init with
  | nil => intro line _; simp [append_crashes, String.join]
  | cons c cs ih =>
    intro line hne
    have hc : c ≠ last := hne c (List.mem_cons_self c cs)
    have hstep : append_crashes last (c :: cs ++ [last]) line =
        append_crashes last (cs ++ [last]) (line ++ c ++ ", ") := by
      simp [append_crashes, hc]
    rw [hstep, ih _ (fun d hd => hne d (List.mem_cons_of_mem c hd)), List.map_cons, join_cons]
    simp only [String.append_assoc]

/-- A run with a log and a non-empty crash list adds one row to `crashed`, built by
`append_crashes`, and nothing to the three other buckets, whatever the exit code. -/
theorem generate_step_crashes (parse : String → String × String) (fs : FS) (input_dir : String)
    (comparison_dir : List String) (report : Report) (hash_id : String) (crashes : List String)
    (hdir : fs.Stat (fs.Join input_dir hash_id) = some true)
    (hlog : fs.Stat (fs.Join (fs.Join input_dir hash_id) (hash_id ++ ".log")) ≠ none)
    (hcrashes : get_crashes fs (fs.Join input_dir hash_id) = some crashes)
    (hne : crashes ≠ []) :
    ∃ report', generate_step parse fs input_dir comparison_dir report hash_id = some report' ∧
      report' "crashed" = report "crashed" ++
        [append_crashes (crashes.getLastD "") crashes (hash_id ++ "|" ++ "CRASHED|")] ∧
      report' "failed" = report "failed" ∧ report' "timed_out" = report "timed_out" ∧
      report' "passed" = report "passed" := by
  have hlen : crashes.length > 0 := List.length_pos.2 hne
  refine ⟨(report.set "kernel_versions" (record_version (report "kernel_versions")
      (parse (fs.Join (fs.Join input_dir hash_id) (hash_id ++ ".log"))).1)).set "crashed"
      (report "crashed" ++
        [append_crashes (crashes.getLastD "") crashes (hash_id ++ "|" ++ "CRASHED|")]), ?_, ?_⟩
  · unfold generate_step
    simp only [get_comparison_results_with_eq, hdir, hcrashes, hlog, ne_eq, not_true_eq_false,
      if_false, hlen, if_true, record_version_report]
    simp [Report.set]
  · simp [Report.set]

/-- The list `record_version` builds holds each version seen once, in first-seen order. -/
theorem record_version_inv (vs : List String) : ∀ (K p : List String),
    K.Nodup → (∀ v, v ∈ K ↔ v ∈ p) → K.Pairwise (fun a b => p.indexOf a < p.indexOf b) →
    (vs.foldl record_version K).Nodup ∧
    (∀ v, v ∈ vs.foldl record_version K ↔ v ∈ p ++ vs) ∧
    (vs.foldl record_version K).Pairwise (fun a b => (p ++ vs).indexOf a < (p ++ vs).indexOf b) := by
  induction vs with
  | nil => intro K p hn hm hp; simpa using ⟨hn, hm, hp⟩
  | cons v vs ih =>
    intro K p hn hm hp
    simp only [List.foldl_cons]
    have key : (record_version K v).Nodup ∧ (∀ w, w ∈ record_version K v ↔ w ∈ p ++ [v]) ∧
        (record_version K v).Pairwise (fun a b => (p ++ [v]).indexOf a < (p ++ [v]).indexOf b) := by
      by_cases hv : v ∈ K
      · have hc : Contains K v = true := (Contains_iff K v).2 hv
        have hrec : record_version K v = K := by simp [record_version, hc]
        rw [hrec]
        refine ⟨hn, ?_, ?_⟩
        · intro w
          rw [hm w, List.mem_append, List.mem_singleton]
          constructor
          · exact Or.inl
          · rintro (hw | rfl)
            · exact hw
            · exact (hm w).1 hv
        · refine hp.imp_of_mem ?_
          intro a b ha hb hab
          rw [List.indexOf_append_of_mem ((hm a).1 ha), List.indexOf_append_of_mem ((hm b).1 hb)]
          exact hab
      · have hc : ¬ Contains K v = true := fun h => hv ((Contains_iff K v).1 h)
        have hrec : record_version K v = K ++ [v] := by simp [record_version, hc]
        rw [hrec]
        refine ⟨?_, ?_, ?_⟩
        · rw [List.nodup_append]
          refine ⟨hn, List.nodup_singleton v, ?_⟩
          intro a ha hb
          rw [List.mem_singleton] at hb
          exact hv (hb ▸ ha)
        · intro w
          simp only [List.mem_append, List.mem_singleton, hm w]
        · rw [List.pairwise_append]
          refine ⟨?_, List.pairwise_singleton _ _, ?_⟩
          · refine hp.imp_of_mem ?_
            intro a b ha hb hab
            rw [List.indexOf_append_of_mem ((hm a).1 ha), List.indexOf_append_of_mem ((hm b).1 hb)]
            exact hab
          · intro a ha b hb
            rw [List.mem_singleton] at hb
            subst hb
            have hbp : b ∉ p := fun h => hv ((hm b).2 h)
            rw [List.indexOf_append_of_mem ((hm a).1 ha), List.indexOf_append_of_not_mem hbp]
            have := List.indexOf_lt_length.2 ((hm a).1 ha)
            omega
    obtain ⟨k1, k2, k3⟩ := key
    have := ih (record_version K v) (p ++ [v]) k1 k2 k3
    simpa [List.append_assoc] using this

/-! ## Comparison Resolver -/

/-- C7: with an empty list of comparison directories `get_comparison_results` returns
the empty string, for every hash id and whatever the file system holds: no directory or
file is consulted and the process is never terminated. -/
theorem get_comparison_results_nil (fs : FS) (hash_id : String) :
    get_comparison_results fs [] hash_id = some "" := by
  simp [get_comparison_results, get_comparison_results_with, get_comparison_results_loop]

/-- C6, at the failing input: for the one comparison directory `cmp`, in which
`cmp/deadbeef/deadbeef.log` is absent, `get_comparison_results` returns the empty
string and not `|Not available`. -/
theorem get_comparison_results_cmp_absent :
    fsA.Stat (fsA.Join (fsA.Join "cmp" "deadbeef") ("deadbeef" ++ ".log")) = none ∧
    get_comparison_results fsA ["cmp"] "deadbeef" = some "" ∧
    get_comparison_results fsA ["cmp"] "deadbeef" ≠ some "|Not available" := by
  decide

/-! ## Log Parser -/

/-- C3, at the failing input: the log `run.log` has a `Linux version` line and ends with
`Reproducer exit code was: 124`, and `get_kernel_version_and_exit_code` returns its
two defaults, `TBD!` and `1`. -/
theorem get_kernel_version_and_exit_code_scenarioC :
    fsC.Open "run.log" =
      some [("[    0.000000] Linux version 4.19.59 (gcc 8.3.0)", false), ("42", false),
        ("Reproducer exit code was: 124", false)] ∧
    get_kernel_version_and_exit_code "run.log" = ("TBD!", "1") := by
  decide

/-! ## Report Builder: classification -/

/-- C1: a run that is a directory, has a run log and an empty crash list makes the loop
body of `generate` succeed and add exactly one row to exactly one bucket, chosen by the
exit code `(parse log).2`: `hash|PASSED|cmp` to `passed` for `"0"`, `hash|TIMED OUT|cmp`
to `timed_out` for `"124"`, `hash|FAILED|cmp` to `failed` otherwise, where `cmp` is what
the comparison resolver returns; the three other buckets are unchanged. -/
theorem generate_step_no_crashes (parse : String → String × String) (fs : FS) (input_dir : String)
    (comparison_dir : List String) (report : Report) (hash_id : String)
    (hdir : fs.Stat (fs.Join input_dir hash_id) = some true)
    (hlog : fs.Stat (fs.Join (fs.Join input_dir hash_id) (hash_id ++ ".log")) ≠ none)
    (hcrashes : get_crashes fs (fs.Join input_dir hash_id) = some []) :
    ∃ cmp report',
      get_comparison_results_with parse fs comparison_dir hash_id = some cmp ∧
      generate_step parse fs input_dir comparison_dir report hash_id = some report' ∧
      ((parse (fs.Join (fs.Join input_dir hash_id) (hash_id ++ ".log"))).2 = "0" →
        report' "passed" = report "passed" ++ [hash_id ++ "|PASSED|" ++ cmp] ∧
        report' "crashed" = report "crashed" ∧ report' "failed" = report "failed" ∧
        report' "timed_out" = report "timed_out") ∧
      ((parse (fs.Join (fs.Join input_dir hash_id) (hash_id ++ ".log"))).2 = "124" →
        report' "timed_out" = report "timed_out" ++ [hash_id ++ "|TIMED OUT|" ++ cmp] ∧
        report' "crashed" = report "crashed" ∧ report' "failed" = report "failed" ∧
        report' "passed" = report "passed") ∧
      ((parse (fs.Join (fs.Join input_dir hash_id) (hash_id ++ ".log"))).2 ≠ "0" →
        (parse (fs.Join (fs.Join input_dir hash_id) (hash_id ++ ".log"))).2 ≠ "124" →
        report' "failed" = report "failed" ++ [hash_id ++ "|FAILED|" ++ cmp] ∧
        report' "crashed" = report "crashed" ∧ report' "timed_out" = report "timed_out" ∧
        report' "passed" = report "passed") := by
  have a1 : ∀ s : String, s ++ "|" ++ ("PASSED|" ++ "" ++ "") = s ++ "|PASSED|" ++ "" := by
    intro s; simp [String.append_assoc]
  have a2 : ∀ s : String, s ++ "|" ++ ("TIMED OUT|" ++ "" ++ "") = s ++ "|TIMED OUT|" ++ "" := by
    intro s; simp [String.append_assoc]
  have a3 : ∀ s : String, s ++ "|" ++ ("FAILED|" ++ "" ++ "") = s ++ "|FAILED|" ++ "" := by
    intro s; simp [String.append_assoc]
  refine ⟨"", ?_, get_comparison_results_with_eq parse fs comparison_dir hash_id, ?_⟩
  · exact
      if (parse (fs.Join (fs.Join input_dir hash_id) (hash_id ++ ".log"))).2 = "124" then
        (report.set "kernel_versions" (record_version (report "kernel_versions")
          (parse (fs.Join (fs.Join input_dir hash_id) (hash_id ++ ".log"))).1)).set "timed_out"
            (report "timed_out" ++ [hash_id ++ "|TIMED OUT|" ++ ""])
      else if (parse (fs.Join (fs.Join input_dir hash_id) (hash_id ++ ".log"))).2 = "0" then
        (report.set "kernel_versions" (record_version (report "kernel_versions")
          (parse (fs.Join (fs.Join input_dir hash_id) (hash_id ++ ".log"))).1)).set "passed"
            (report "passed" ++ [hash_id ++ "|PASSED|" ++ ""])
      else
        (report.set "kernel_versions" (record_version (report "kernel_versions")
          (parse (fs.Join (fs.Join input_dir hash_id) (hash_id ++ ".log"))).1)).set "failed"
            (report "failed" ++ [hash_id ++ "|FAILED|" ++ ""])
  · refine ⟨?_, ?_, ?_, ?_⟩
    · unfold generate_step
      simp only [get_comparison_results_with_eq, hdir, hcrashes, hlog, ne_eq, not_true_eq_false,
        if_false, List.length_nil, gt_iff_lt, lt_self_iff_false, record_version_report, a1, a2, a3]
      split_ifs <;> simp [Report.set]
    · intro h0
      have h124 : (parse (fs.Join (fs.Join input_dir hash_id) (hash_id ++ ".log"))).2 ≠ "124" := by
        rw [h0]; decide
      simp [h0, Report.set]
    · intro h124
      simp [h124, Report.set]
    · intro h0 h124
      simp [h0, h124, Report.set]

/-- Witness of C1: the run `deadbeef` of scenario A, with the parser of the source. -/
theorem generate_step_no_crashes_witness :
    fsA.Stat (fsA.Join "in" "deadbeef") = some true ∧
    fsA.Stat (fsA.Join (fsA.Join "in" "deadbeef") ("deadbeef" ++ ".log")) ≠ none ∧
    get_crashes fsA (fsA.Join "in" "deadbeef") = some [] ∧
    ∃ cmp report',
      get_comparison_results_with get_kernel_version_and_exit_code fsA [] "deadbeef" = some cmp ∧
      generate_step get_kernel_version_and_exit_code fsA "in" [] (generate_init []) "deadbeef" =
        some report' ∧
      ((get_kernel_version_and_exit_code
          (fsA.Join (fsA.Join "in" "deadbeef") ("deadbeef" ++ ".log"))).2 = "0" →
        report' "passed" = generate_init [] "passed" ++ ["deadbeef" ++ "|PASSED|" ++ cmp] ∧
        report' "crashed" = generate_init [] "crashed" ∧
        report' "failed" = generate_init [] "failed" ∧
        report' "timed_out" = generate_init [] "timed_out") ∧
      ((get_kernel_version_and_exit_code
          (fsA.Join (fsA.Join "in" "deadbeef") ("deadbeef" ++ ".log"))).2 = "124" →
        report' "timed_out" = generate_init [] "timed_out" ++ ["deadbeef" ++ "|TIMED OUT|" ++ cmp] ∧
        report' "crashed" = generate_init [] "crashed" ∧
        report' "failed" = generate_init [] "failed" ∧
        report' "passed" = generate_init [] "passed") ∧
      ((get_kernel_version_and_exit_code
          (fsA.Join (fsA.Join "in" "deadbeef") ("deadbeef" ++ ".log"))).2 ≠ "0" →
        (get_kernel_version_and_exit_code
          (fsA.Join (fsA.Join "in" "deadbeef") ("deadbeef" ++ ".log"))).2 ≠ "124" →
        report' "failed" = generate_init [] "failed" ++ ["deadbeef" ++ "|FAILED|" ++ cmp] ∧
        report' "crashed" = generate_init [] "crashed" ∧
        report' "timed_out" = generate_init [] "timed_out" ∧
        report' "passed" = generate_init [] "passed") :=
  ⟨by decide, by decide, by decide,
    generate_step_no_crashes get_kernel_version_and_exit_code fsA "in" [] (generate_init [])
      "deadbeef" (by decide) (by decide) (by decide)⟩

/-- C2, at the failing input: the run `cafef00d` has two crash subdirectories with the
same description `KASAN: use-after-free`; the row added to `crashed` has the two
descriptions without the separator `", "` between them. -/
theorem generate_crashed_row_duplicate :
    get_crashes fsB (fsB.Join "in" "cafef00d") =
      some ["KASAN: use-after-free", "KASAN: use-after-free"] ∧
    (generate_report fsB "in" []).map (fun report => report "crashed") =
      some ["cafef00d|CRASHED|KASAN: use-after-freeKASAN: use-after-free"] ∧
    (generate_report fsB "in" []).map (fun report => report "crashed") ≠
      some ["cafef00d|CRASHED|KASAN: use-after-free, KASAN: use-after-free"] := by
  decide

/-! ## Report Builder: summary, kernel versions, header -/

/-- C4: when `generate` builds its report, the summary is the five lines
`Total number of reproducers: N`, `Crashed: c`, `Failed: f`, `Timed out: t`, `passed: p`,
with `c`, `f`, `t`, `p` the numbers of rows of the four buckets, `N = c + f + t + p`, and
`N` the number of entries of the input directory that are directories holding a
`<hash>.log`; with no such entry the five lines show `0`. -/
theorem generate_report_summary (parse : String → String × String) (fs : FS) (input_dir : String)
    (comparison_dir dirList : List String) (report : Report)
    (hlist : fs.ReadDir input_dir = some dirList)
    (h : generate_report_with parse fs input_dir comparison_dir = some report) :
    report "summary" =
      ["Total number of reproducers: " ++ Itoa (dirList.filter (has_run_log fs input_dir)).length,
       "Crashed: " ++ Itoa (report "crashed").length,
       "Failed: " ++ Itoa (report "failed").length,
       "Timed out: " ++ Itoa (report "timed_out").length,
       "passed: " ++ Itoa (report "passed").length] ∧
    (dirList.filter (has_run_log fs input_dir)).length =
      (report "crashed").length + (report "failed").length + (report "timed_out").length +
        (report "passed").length ∧
    (dirList.filter (has_run_log fs input_dir) = [] →
      report "summary" =
        ["Total number of reproducers: 0", "Crashed: 0", "Failed: 0", "Timed out: 0",
         "passed: 0"]) := by
  obtain ⟨report0, rfl, h1, h2, -, -⟩ :=
    generate_report_with_inv parse fs input_dir comparison_dir dirList report hlist h
  have hc := generate_summary_other report0 "crashed" (by decide)
  have hf := generate_summary_other report0 "failed" (by decide)
  have ht := generate_summary_other report0 "timed_out" (by decide)
  have hp := generate_summary_other report0 "passed" (by decide)
  have hsum : generate_summary report0 "summary" =
      ["Total number of reproducers: " ++ Itoa (dirList.filter (has_run_log fs input_dir)).length,
       "Crashed: " ++ Itoa (generate_summary report0 "crashed").length,
       "Failed: " ++ Itoa (generate_summary report0 "failed").length,
       "Timed out: " ++ Itoa (generate_summary report0 "timed_out").length,
       "passed: " ++ Itoa (generate_summary report0 "passed").length] := by
    rw [generate_summary_summary, h2, h1, hc, hf, ht, hp, List.nil_append]
  have htot : (dirList.filter (has_run_log fs input_dir)).length =
      (generate_summary report0 "crashed").length + (generate_summary report0 "failed").length +
        (generate_summary report0 "timed_out").length +
        (generate_summary report0 "passed").length := by
    rw [hc, hf, ht, hp, ← h1, bucket_total]
  refine ⟨hsum, htot, ?_⟩
  intro hnil
  rw [hnil, List.length_nil] at htot
  have z1 : (generate_summary report0 "crashed").length = 0 := by omega
  have z2 : (generate_summary report0 "failed").length = 0 := by omega
  have z3 : (generate_summary report0 "timed_out").length = 0 := by omega
  have z4 : (generate_summary report0 "passed").length = 0 := by omega
  rw [hsum, hnil, z1, z2, z3, z4]
  decide

/-- Witness of C4: the input directory of `fsD`, where two of the four entries are
directories with a log. -/
theorem generate_report_summary_witness :
    fsD.ReadDir "in" = some ["0a1b", "README", "c2d3", "e4f5"] ∧
    generate_report_with get_kernel_version_and_exit_code fsD "in" [] = some reportD ∧
    (reportD "summary" =
      ["Total number of reproducers: " ++
         Itoa (["0a1b", "README", "c2d3", "e4f5"].filter (has_run_log fsD "in")).length,
       "Crashed: " ++ Itoa (reportD "crashed").length,
       "Failed: " ++ Itoa (reportD "failed").length,
       "Timed out: " ++ Itoa (reportD "timed_out").length,
       "passed: " ++ Itoa (reportD "passed").length] ∧
    (["0a1b", "README", "c2d3", "e4f5"].filter (has_run_log fsD "in")).length =
      (reportD "crashed").length + (reportD "failed").length + (reportD "timed_out").length +
        (reportD "passed").length ∧
    (["0a1b", "README", "c2d3", "e4f5"].filter (has_run_log fsD "in") = [] →
      reportD "summary" =
        ["Total number of reproducers: 0", "Crashed: 0", "Failed: 0", "Timed out: 0",
         "passed: 0"])) :=
  ⟨rfl, rfl, generate_report_summary get_kernel_version_and_exit_code fsD "in" []
    ["0a1b", "README", "c2d3", "e4f5"] reportD rfl rfl⟩

/-- C5: the `kernel_versions` section of the report `generate` builds has no duplicate;
every version the parser yields for a run with a log occurs in it exactly once, nothing
else occurs in it, and its order is the order of first occurrence among the runs. -/
theorem generate_report_kernel_versions (parse : String → String × String) (fs : FS)
    (input_dir : String) (comparison_dir dirList : List String) (report : Report)
    (hlist : fs.ReadDir input_dir = some dirList)
    (h : generate_report_with parse fs input_dir comparison_dir = some report) :
    (report "kernel_versions").Nodup ∧
    (∀ v, v ∈ run_versions parse fs input_dir dirList → (report "kernel_versions").count v = 1) ∧
    (∀ v, v ∈ report "kernel_versions" → v ∈ run_versions parse fs input_dir dirList) ∧
    (report "kernel_versions").Pairwise (fun a b =>
      (run_versions parse fs input_dir dirList).indexOf a <
        (run_versions parse fs input_dir dirList).indexOf b) := by
  obtain ⟨report0, rfl, -, -, -, h4⟩ :=
    generate_report_with_inv parse fs input_dir comparison_dir dirList report hlist h
  rw [generate_summary_other report0 "kernel_versions" (by decide), h4]
  obtain ⟨k1, k2, k3⟩ := record_version_inv (run_versions parse fs input_dir dirList) [] []
    List.nodup_nil (fun v => Iff.rfl) List.Pairwise.nil
  simp only [List.nil_append] at k2 k3
  refine ⟨k1, ?_, fun v hv => (k2 v).1 hv, k3⟩
  intro v hv
  exact List.count_eq_one_of_mem k1 ((k2 v).2 hv)

/-- Witness of C5: the two runs of `fsD` yield the same version, which is listed once. -/
theorem generate_report_kernel_versions_witness :
    fsD.ReadDir "in" = some ["0a1b", "README", "c2d3", "e4f5"] ∧
    generate_report_with get_kernel_version_and_exit_code fsD "in" [] = some reportD ∧
    run_versions get_kernel_version_and_exit_code fsD "in" ["0a1b", "README", "c2d3", "e4f5"] =
      ["TBD!", "TBD!"] ∧
    reportD "kernel_versions" = ["TBD!"] ∧
    ((reportD "kernel_versions").Nodup ∧
    (∀ v, v ∈ run_versions get_kernel_version_and_exit_code fsD "in"
        ["0a1b", "README", "c2d3", "e4f5"] → (reportD "kernel_versions").count v = 1) ∧
    (∀ v, v ∈ reportD "kernel_versions" → v ∈ run_versions get_kernel_version_and_exit_code fsD "in"
        ["0a1b", "README", "c2d3", "e4f5"]) ∧
    (reportD "kernel_versions").Pairwise (fun a b =>
      (run_versions get_kernel_version_and_exit_code fsD "in"
        ["0a1b", "README", "c2d3", "e4f5"]).indexOf a <
        (run_versions get_kernel_version_and_exit_code fsD "in"
          ["0a1b", "README", "c2d3", "e4f5"]).indexOf b)) :=
  ⟨rfl, rfl, by decide, by decide,
    generate_report_kernel_versions get_kernel_version_and_exit_code fsD "in" []
      ["0a1b", "README", "c2d3", "e4f5"] reportD rfl rfl⟩

/-- C8, as amended: the header section of the report `generate` builds is a single line;
it is `SHA|Status|Crashes` when the list of comparison directories is empty or is the
one empty string, and otherwise `SHA|Status|Crashes` followed by `"|" + dir` for each
directory of the list in order. -/
theorem generate_report_header (parse : String → String × String) (fs : FS) (input_dir : String)
    (comparison_dir : List String) (report : Report)
    (h : generate_report_with parse fs input_dir comparison_dir = some report) :
    report "header" =
      [if comparison_dir = [] ∨ comparison_dir = [""] then "SHA|Status|Crashes"
       else "SHA|Status|Crashes" ++ String.join (comparison_dir.map (fun dir => "|" ++ dir))] := by
  cases hlist : fs.ReadDir input_dir with
  | none => simp [generate_report_with, hlist] at h
  | some dirList =>
    obtain ⟨report0, rfl, -, -, h3, -⟩ :=
      generate_report_with_inv parse fs input_dir comparison_dir dirList report hlist h
    rw [generate_summary_other report0 "header" (by decide), h3, generate_init_header]

/-- Witness of C8 as amended: scenario A with the comparison directory `cmp`. -/
theorem generate_report_header_witness :
    generate_report_with get_kernel_version_and_exit_code fsA "in" ["cmp"] = some reportA ∧
    reportA "header" =
      [if ["cmp"] = ([] : List String) ∨ ["cmp"] = [""] then "SHA|Status|Crashes"
       else "SHA|Status|Crashes" ++ String.join (["cmp"].map (fun dir => "|" ++ dir))] :=
  ⟨rfl, generate_report_header get_kernel_version_and_exit_code fsA "in" ["cmp"] reportA rfl⟩

/-- C8, counterexample: for the list of two empty strings, which holds no non-empty
directory name, the header is `SHA|Status|Crashes||` and not `SHA|Status|Crashes`. -/
theorem generate_header_two_empty :
    (∀ dir ∈ ["", ""], dir = "") ∧
    (generate_report fsA "in" ["", ""]).map (fun report => report "header") =
      some ["SHA|Status|Crashes||"] ∧
    (generate_report fsA "in" ["", ""]).map (fun report => report "header") ≠
      some ["SHA|Status|Crashes"] := by
  decide

/-- C9, counterexample: in scenario A the `passed` bucket is empty (the row is
`deadbeef|FAILED|` in `failed`), the summary has `passed: 0`, the `kernel_versions`
section holds `TBD!`, and the text written starts with the kernel version block. -/
theorem scenarioA_not_passed :
    fsA.Open "in/deadbeef/deadbeef.log" =
      some [("booting", false), ("Reproducer exit code was: 0", false)] ∧
    get_crashes fsA "in/deadbeef" = some [] ∧
    ¬ ((generate_report fsA "in" []).map (fun report => report "passed") =
          some ["deadbeef|PASSED|"] ∧
       (generate_report fsA "in" []).map (fun report => decide ("passed: 1" ∈ report "summary")) =
          some true ∧
       (generate_report fsA "in" []).map (fun report => report "kernel_versions") = some []) ∧
    (generate_report fsA "in" []).map (fun report => report "passed") = some [] ∧
    (generate_report fsA "in" []).map (fun report => report "failed") = some ["deadbeef|FAILED|"] ∧
    (generate_report fsA "in" []).map (fun report => report "summary") =
      some ["Total number of reproducers: 1", "Crashed: 0", "Failed: 1", "Timed out: 0",
        "passed: 0"] ∧
    (generate_report fsA "in" []).map (fun report => report "kernel_versions") = some ["TBD!"] ∧
    (generate fsA "in" "out.md" "" []).map
      (fun out => "# Found kernel version(s):\n".data.isPrefixOf out.data) = some true := by
  decide

/-- C9, as amended: in scenario A the report `generate` builds has the `kernel_versions`
section `[TBD!]`, its four buckets hold one row in all (`Total number of reproducers: 1`),
and `write_report` writes the block `# Found kernel version(s):` with the line `TBD!`
before the summary. -/
theorem scenarioA_kernel_block :
    fsA.ReadDir "in" = some ["deadbeef"] ∧
    fsA.Open "in/deadbeef/deadbeef.log" =
      some [("booting", false), ("Reproducer exit code was: 0", false)] ∧
    get_crashes fsA "in/deadbeef" = some [] ∧
    (generate_report fsA "in" []).map (fun report => report "kernel_versions") = some ["TBD!"] ∧
    (generate_report fsA "in" []).map (fun report => bucket_total report) = some 1 ∧
    (generate_report fsA "in" []).map (fun report => (report "summary").head?) =
      some (some "Total number of reproducers: 1") ∧
    (generate fsA "in" "out.md" "" []).map
      (fun out => "# Found kernel version(s):\n```\nTBD!\n```\n# Summary:\n".data.isPrefixOf out.data) =
        some true := by
  decide

/-- C10, at the failing input: scenario A with the comparison directory `cmp` (no `|` in
any name). The header splits into four fields, the separator row `write_report` derives
from it too, and the row of the run into three. -/
theorem generate_table_not_rectangular :
    (generate_report fsA "in" ["cmp"]).map (fun report => report "header") =
      some ["SHA|Status|Crashes|cmp"] ∧
    (generate_report fsA "in" ["cmp"]).map (fun report => report "failed") =
      some ["deadbeef|FAILED|"] ∧
    (Split "SHA|Status|Crashes|cmp" '|').length = 4 ∧
    (Split (separator_row (Split "SHA|Status|Crashes|cmp" '|').length) '|').length = 4 ∧
    (Split "deadbeef|FAILED|" '|').length = 3 := by
  decide

end SyzReporter
